import Mathlib

/-!
# Salus Bridge — shallow embedding of src/app/main.py

The repository is a single FastAPI module bridging HTTP requests to a Salus
iT600 heating gateway.  We embed its data model and every endpoint handler as
pure Lean functions.  The gateway client (pyit600, an external collaborator)
is modelled by its observable state: a mapping from device id to device
record, kept as an insertion-ordered association list, mirroring the Python
dict returned by get_climate_devices.  Each handler returns its HTTP outcome
(an Except: a raised HTTPException or the JSON response object) together with
the ordered trace of gateway calls it performed (poll_status and the three
setters), so ordering and call-count claims are statable.

Numeric temperature payloads are carried verbatim by every handler and never
computed with, so we represent Python floats by ℚ; only pass-through equality
of these values is ever asserted.  Python f-string error details interpolate
the full list of accepted values into the message; we keep the detail
structured (constructor carrying the interpolated data) rather than rendering
the text.
-/

/-- A climate device record as exposed by the gateway client (the fields the
bridge reads in device_to_response). -/
structure Device where
  name : String
  current_temperature : Option ℚ
  target_temperature : Option ℚ
  hvac_mode : Option String
  hvac_action : Option String
  preset_mode : Option String
  available : Bool
deriving DecidableEq, Repr

/-- Wire-facing device shape (response model DeviceResponse). -/
structure DeviceResponse where
  id : String
  name : String
  current_temperature : Option ℚ
  target_temperature : Option ℚ
  hvac_mode : Option String
  hvac_action : Option String
  preset_mode : Option String
  available : Bool
deriving DecidableEq, Repr

/-- Response model DeviceListResponse. -/
structure DeviceListResponse where
  devices : List DeviceResponse
  count : Nat
deriving DecidableEq, Repr

/-- Helper function device_to_response: builds the wire shape from a device
record, copying each field. -/
def device_to_response (device_id : String) (device : Device) : DeviceResponse :=
  { id := device_id
    name := device.name
    current_temperature := device.current_temperature
    target_temperature := device.target_temperature
    hvac_mode := device.hvac_mode
    hvac_action := device.hvac_action
    preset_mode := device.preset_mode
    available := device.available }

/-- The gateway client state visible to the bridge: the id → device mapping
that poll_status refreshes (Python dict, insertion ordered). -/
structure Gateway where
  devices : List (String × Device)
deriving DecidableEq, Repr

/-- gateway.get_climate_devices(): the full mapping. -/
def Gateway.get_climate_devices (gw : Gateway) : List (String × Device) :=
  gw.devices

/-- gateway.get_climate_device(device_id): lookup, None when absent. -/
def Gateway.get_climate_device (gw : Gateway) (device_id : String) : Option Device :=
  (gw.devices.find? (fun pr => pr.1 == device_id)).map Prod.snd

/-- One observable gateway call made by a handler. -/
inductive Event where
  | poll
  | setTemperature (device_id : String) (value : ℚ)
  | setMode (device_id : String) (mode : String)
  | setPreset (device_id : String) (preset : String)
deriving DecidableEq, Repr

/-- Structured HTTPException detail.  deviceNotFound models
"Device {device_id} not found"; invalidMode / invalidPreset model
"Invalid mode/preset. Must be one of: {valid list}" — the constructor carries
exactly the data the f-string interpolates, so the message enumerates the
full accepted list. -/
inductive Detail where
  | deviceNotFound (device_id : String)
  | invalidMode (valid_modes : List String)
  | invalidPreset (valid_presets : List String)
deriving DecidableEq, Repr

/-- A raised fastapi HTTPException. -/
structure HTTPException where
  status_code : Nat
  detail : Detail
deriving DecidableEq, Repr

/-- The valid_modes list of set_mode. -/
def valid_modes : List String := ["off", "heat", "auto"]

/-- The valid_presets list of set_preset and set_zone_preset. -/
def valid_presets : List String := ["Follow Schedule", "Permanent Hold", "Off"]

/-- Success body of POST /device/{id}/temperature. -/
structure TemperatureResponse where
  status : String
  device_id : String
  temperature : ℚ
deriving DecidableEq, Repr

/-- Success body of POST /device/{id}/mode. -/
structure ModeResponse where
  status : String
  device_id : String
  mode : String
deriving DecidableEq, Repr

/-- Success body of POST /device/{id}/preset. -/
structure PresetResponse where
  status : String
  device_id : String
  preset : String
deriving DecidableEq, Repr

/-- One entry of a zone endpoint results list. -/
structure ZoneResult where
  device_id : String
  status : String
deriving DecidableEq, Repr

/-- Request body of POST /zone/temperature. -/
structure ZoneTemperatureRequest where
  device_ids : List String
  temperature : ℚ
deriving DecidableEq, Repr

/-- Request body of POST /zone/preset. -/
structure ZonePresetRequest where
  device_ids : List String
  preset : String
deriving DecidableEq, Repr

/-- Success body of POST /zone/temperature. -/
structure ZoneTemperatureResponse where
  status : String
  temperature : ℚ
  results : List ZoneResult
deriving DecidableEq, Repr

/-- Success body of POST /zone/preset. -/
structure ZonePresetResponse where
  status : String
  preset : String
  results : List ZoneResult
deriving DecidableEq, Repr

/-- GET /devices: poll, read the mapping, return one view per entry plus the
mapping size as count.  No failure path. -/
def get_devices (gw : Gateway) : DeviceListResponse × List Event :=
  let devices := gw.get_climate_devices
  ({ devices := devices.map (fun pr => device_to_response pr.1 pr.2)
     count := devices.length },
   [Event.poll])

/-- GET /device/{device_id}: poll, lookup, 404 when absent. -/
def get_device (gw : Gateway) (device_id : String) :
    Except HTTPException DeviceResponse × List Event :=
  match gw.get_climate_device device_id with
  | none => (Except.error ⟨404, Detail.deviceNotFound device_id⟩, [Event.poll])
  | some device => (Except.ok (device_to_response device_id device), [Event.poll])

/-- POST /device/{device_id}/temperature: poll, lookup (404 when absent),
call the temperature setter, confirm. -/
def set_temperature (gw : Gateway) (device_id : String) (temperature : ℚ) :
    Except HTTPException TemperatureResponse × List Event :=
  match gw.get_climate_device device_id with
  | none => (Except.error ⟨404, Detail.deviceNotFound device_id⟩, [Event.poll])
  | some _ =>
      (Except.ok { status := "ok", device_id := device_id, temperature := temperature },
       [Event.poll, Event.setTemperature device_id temperature])

/-- POST /device/{device_id}/mode: poll, lookup (404 when absent), reject a
mode outside valid_modes with 400, else call the mode setter and confirm. -/
def set_mode (gw : Gateway) (device_id : String) (mode : String) :
    Except HTTPException ModeResponse × List Event :=
  match gw.get_climate_device device_id with
  | none => (Except.error ⟨404, Detail.deviceNotFound device_id⟩, [Event.poll])
  | some _ =>
      if mode ∉ valid_modes then
        (Except.error ⟨400, Detail.invalidMode valid_modes⟩, [Event.poll])
      else
        (Except.ok { status := "ok", device_id := device_id, mode := mode },
         [Event.poll, Event.setMode device_id mode])

/-- POST /device/{device_id}/preset: poll, lookup (404 when absent), reject a
preset outside valid_presets with 400, else call the preset setter. -/
def set_preset (gw : Gateway) (device_id : String) (preset : String) :
    Except HTTPException PresetResponse × List Event :=
  match gw.get_climate_device device_id with
  | none => (Except.error ⟨404, Detail.deviceNotFound device_id⟩, [Event.poll])
  | some _ =>
      if preset ∉ valid_presets then
        (Except.error ⟨400, Detail.invalidPreset valid_presets⟩, [Event.poll])
      else
        (Except.ok { status := "ok", device_id := device_id, preset := preset },
         [Event.poll, Event.setPreset device_id preset])

/-- The per-device loop of set_zone_temperature: for each id in order, lookup;
when present, call the setter and record ok; when absent, record not_found
and continue. -/
def zone_temperature_loop (gw : Gateway) (temperature : ℚ) :
    List String → List ZoneResult × List Event
  | [] => ([], [])
  | device_id :: rest =>
      match gw.get_climate_device device_id with
      | some _ =>
          let r := zone_temperature_loop gw temperature rest
          (⟨device_id, "ok"⟩ :: r.1, Event.setTemperature device_id temperature :: r.2)
      | none =>
          let r := zone_temperature_loop gw temperature rest
          (⟨device_id, "not_found"⟩ :: r.1, r.2)

/-- POST /zone/temperature: poll once, then run the per-device loop, then
return status ok with the echoed temperature and the results list. -/
def set_zone_temperature (gw : Gateway) (request : ZoneTemperatureRequest) :
    ZoneTemperatureResponse × List Event :=
  let r := zone_temperature_loop gw request.temperature request.device_ids
  ({ status := "ok", temperature := request.temperature, results := r.1 },
   Event.poll :: r.2)

/-- The per-device loop of set_zone_preset, same shape as the temperature
loop but calling the preset setter. -/
def zone_preset_loop (gw : Gateway) (preset : String) :
    List String → List ZoneResult × List Event
  | [] => ([], [])
  | device_id :: rest =>
      match gw.get_climate_device device_id with
      | some _ =>
          let r := zone_preset_loop gw preset rest
          (⟨device_id, "ok"⟩ :: r.1, Event.setPreset device_id preset :: r.2)
      | none =>
          let r := zone_preset_loop gw preset rest
          (⟨device_id, "not_found"⟩ :: r.1, r.2)

/-- POST /zone/preset: poll once, then reject a preset outside valid_presets
with 400 for the whole batch, else run the per-device loop and return status
ok with the echoed preset and the results list.  Note the poll precedes the
validation check, as in the source. -/
def set_zone_preset (gw : Gateway) (request : ZonePresetRequest) :
    Except HTTPException ZonePresetResponse × List Event :=
  if request.preset ∉ valid_presets then
    (Except.error ⟨400, Detail.invalidPreset valid_presets⟩, [Event.poll])
  else
    let r := zone_preset_loop gw request.preset request.device_ids
    (Except.ok { status := "ok", preset := request.preset, results := r.1 },
     Event.poll :: r.2)

/-- Process environment at startup: the two os.getenv reads. -/
structure Env where
  SALUS_GATEWAY_HOST : Option String
  SALUS_GATEWAY_EUID : Option String
deriving DecidableEq, Repr

/-- Python truthiness test `not value` for an Optional[str]: true on None and
on the empty string. -/
def py_not_str : Option String → Bool
  | none => true
  | some s => s == ""

/-- Module-level configuration check: raise ValueError when either variable
is falsy, else the configuration pair used by the lifespan. -/
def module_init (env : Env) : Except String (String × String) :=
  if py_not_str env.SALUS_GATEWAY_HOST || py_not_str env.SALUS_GATEWAY_EUID then
    Except.error
      "SALUS_GATEWAY_HOST and SALUS_GATEWAY_EUID environment variables are required"
  else
    Except.ok (env.SALUS_GATEWAY_HOST.getD "", env.SALUS_GATEWAY_EUID.getD "")

/-- A gateway call made during startup (lifespan): connect, then poll. -/
inductive StartupCall where
  | connect (host : String) (euid : String)
  | poll
deriving DecidableEq, Repr

/-- Process start: module initialization (which performs the configuration
check) runs first and aborts with the ValueError message on failure; only on
success does the lifespan construct the gateway, connect and poll. -/
def process_start (env : Env) : Except String (List StartupCall) :=
  match module_init env with
  | Except.error msg => Except.error msg
  | Except.ok (host, euid) => Except.ok [StartupCall.connect host euid, StartupCall.poll]

/-! ## Helper lemmas and sample data -/

/-- A concrete device record used by witnesses. -/
def sampleDevice : Device :=
  { name := "Living Room"
    current_temperature := some 21
    target_temperature := some 22
    hvac_mode := some "heat"
    hvac_action := some "heating"
    preset_mode := some "Follow Schedule"
    available := true }

/-- A concrete gateway state used by witnesses: devices d1 and d3 present,
d2 absent. -/
def sampleGateway : Gateway := ⟨[("d1", sampleDevice), ("d3", sampleDevice)]⟩

/-- Closed form of the zone-temperature loop: one result per requested id in
order, tagged by presence, and one setter call per present id in order. -/
theorem zone_temperature_loop_eq (gw : Gateway) (t : ℚ) (ids : List String) :
    zone_temperature_loop gw t ids =
      (ids.map (fun id =>
         ⟨id, if (gw.get_climate_device id).isSome then "ok" else "not_found"⟩),
       (ids.filter (fun id => (gw.get_climate_device id).isSome)).map
         (fun id => Event.setTemperature id t)) := by
  induction ids with
  | nil => rfl
  | cons device_id rest ih =>
      cases h : gw.get_climate_device device_id with
      | none => simp [zone_temperature_loop, h, ih, List.filter_cons]
      | some d => simp [zone_temperature_loop, h, ih, List.filter_cons]

/-- Closed form of the zone-preset loop, same shape. -/
theorem zone_preset_loop_eq (gw : Gateway) (p : String) (ids : List String) :
    zone_preset_loop gw p ids =
      (ids.map (fun id =>
         ⟨id, if (gw.get_climate_device id).isSome then "ok" else "not_found"⟩),
       (ids.filter (fun id => (gw.get_climate_device id).isSome)).map
         (fun id => Event.setPreset id p)) := by
  induction ids with
  | nil => rfl
  | cons device_id rest ih =>
      cases h : gw.get_climate_device device_id with
      | none => simp [zone_preset_loop, h, ih, List.filter_cons]
      | some d => simp [zone_preset_loop, h, ih, List.filter_cons]

/-! ## Claim theorems -/

/-- C1: both zone endpoints (zone preset after its preset passed validation)
return one outcome per requested id, in request order (the results list is a
map over the ids), tagged ok exactly when the device is present and not_found
when absent; an absent id leaves the rest of the batch processed, and the
setter-call trace is exactly one call per present id, in order. -/
theorem zone_batch_outcome_per_id (gw : Gateway) (ids : List String) (t : ℚ)
    (p : String) (hp : p ∈ valid_presets) :
    set_zone_temperature gw ⟨ids, t⟩ =
      ({ status := "ok", temperature := t,
         results := ids.map (fun id =>
           ⟨id, if (gw.get_climate_device id).isSome then "ok" else "not_found"⟩) },
       Event.poll :: (ids.filter (fun id => (gw.get_climate_device id).isSome)).map
         (fun id => Event.setTemperature id t)) ∧
    set_zone_preset gw ⟨ids, p⟩ =
      (Except.ok { status := "ok", preset := p,
                   results := ids.map (fun id =>
                     ⟨id, if (gw.get_climate_device id).isSome then "ok" else "not_found"⟩) },
       Event.poll :: (ids.filter (fun id => (gw.get_climate_device id).isSome)).map
         (fun id => Event.setPreset id p)) := by
  constructor
  · simp [set_zone_temperature, zone_temperature_loop_eq]
  · simp [set_zone_preset, hp, zone_preset_loop_eq]

/-- C1 witness: a three-id batch with the middle id absent yields ok,
not_found, ok in order and setter calls for the outer two only. -/
theorem zone_batch_outcome_per_id_witness :
    "Off" ∈ valid_presets ∧
    set_zone_temperature sampleGateway ⟨["d1", "d2", "d3"], 21⟩ =
      ({ status := "ok", temperature := 21,
         results := [⟨"d1", "ok"⟩, ⟨"d2", "not_found"⟩, ⟨"d3", "ok"⟩] },
       [Event.poll, Event.setTemperature "d1" 21, Event.setTemperature "d3" 21]) ∧
    set_zone_preset sampleGateway ⟨["d1", "d2", "d3"], "Off"⟩ =
      (Except.ok { status := "ok", preset := "Off",
                   results := [⟨"d1", "ok"⟩, ⟨"d2", "not_found"⟩, ⟨"d3", "ok"⟩] },
       [Event.poll, Event.setPreset "d1" "Off", Event.setPreset "d3" "Off"]) :=
  ⟨by decide,
   (zone_batch_outcome_per_id sampleGateway ["d1", "d2", "d3"] 21 "Off"
      (by decide)).1.trans (by rfl),
   (zone_batch_outcome_per_id sampleGateway ["d1", "d2", "d3"] 21 "Off"
      (by decide)).2.trans (by rfl)⟩

/-- The invalid-preset branch of set_zone_preset in closed form. -/
theorem set_zone_preset_invalid_eq (gw : Gateway) (ids : List String) (p : String)
    (hv : p ∉ valid_presets) :
    set_zone_preset gw ⟨ids, p⟩ =
      (Except.error ⟨400, Detail.invalidPreset valid_presets⟩, [Event.poll]) := by
  unfold set_zone_preset
  split
  · rfl
  · rename_i h
    exact absurd hv h

/-- C2: for any preset outside the accepted three, POST /zone/preset fails
the whole batch with HTTP 400 whose detail carries the accepted list, and the
trace is the lone poll: zero per-device setter calls are made. -/
theorem zone_preset_invalid_rejected (gw : Gateway) (ids : List String) (p : String)
    (hp : p ∉ ["Follow Schedule", "Permanent Hold", "Off"]) :
    set_zone_preset gw ⟨ids, p⟩ =
      (Except.error ⟨400, Detail.invalidPreset ["Follow Schedule", "Permanent Hold", "Off"]⟩,
       [Event.poll]) ∧
    ∀ id v, Event.setPreset id v ∉ (set_zone_preset gw ⟨ids, p⟩).2 := by
  have hv : p ∉ valid_presets := by simpa [valid_presets] using hp
  have he := set_zone_preset_invalid_eq gw ids p hv
  refine ⟨by simp [he, valid_presets], ?_⟩
  intro id v
  simp [he]

/-- C2 witness: "off" (which differs from the accepted "Off" in case only) is
rejected for the whole batch with 400 and a lone poll in the trace. -/
theorem zone_preset_invalid_rejected_witness :
    "off" ∉ ["Follow Schedule", "Permanent Hold", "Off"] ∧
    set_zone_preset sampleGateway ⟨["d1"], "off"⟩ =
      (Except.error ⟨400, Detail.invalidPreset ["Follow Schedule", "Permanent Hold", "Off"]⟩,
       [Event.poll]) :=
  ⟨by decide, (zone_preset_invalid_rejected sampleGateway ["d1"] "off" (by decide)).1⟩

/-- C3 counterexample: with the invalid preset "bogus", the zone-preset
handler still performs the gateway poll — its trace is [poll], not empty —
and only then fails validation with 400; so the preset value is not validated
before the gateway state refresh, contrary to the claimed step order. -/
theorem zone_preset_poll_precedes_validation_cx :
    "bogus" ∉ valid_presets ∧
    (set_zone_preset sampleGateway ⟨["d1"], "bogus"⟩).1 =
      Except.error ⟨400, Detail.invalidPreset valid_presets⟩ ∧
    (set_zone_preset sampleGateway ⟨["d1"], "bogus"⟩).2 = [Event.poll] :=
  ⟨by decide, by rfl, by rfl⟩

/-- C3 (amended): the gateway state refresh is performed exactly once per
zone-preset call, first, before any device in the batch is processed; the
preset is validated up front after that single poll and before touching any
device — on an invalid preset the handler fails the batch with 400 and the
trace stays the lone poll (no setter call, but the poll has already
happened). -/
theorem zone_preset_validation_after_single_poll (gw : Gateway) (ids : List String)
    (p : String) :
    ((set_zone_preset gw ⟨ids, p⟩).2.head? = some Event.poll ∧
     Event.poll ∉ (set_zone_preset gw ⟨ids, p⟩).2.tail) ∧
    (p ∉ valid_presets →
      (set_zone_preset gw ⟨ids, p⟩).2 = [Event.poll] ∧
      (set_zone_preset gw ⟨ids, p⟩).1 =
        Except.error ⟨400, Detail.invalidPreset valid_presets⟩) := by
  by_cases hp : p ∈ valid_presets
  · refine ⟨⟨?_, ?_⟩, fun h => absurd hp h⟩
    · simp [set_zone_preset, hp]
    · simp [set_zone_preset, hp, zone_preset_loop_eq]
  · exact ⟨⟨by simp [set_zone_preset, hp], by simp [set_zone_preset, hp]⟩,
     fun _ => ⟨by simp [set_zone_preset, hp], by simp [set_zone_preset, hp]⟩⟩

/-- C9: with an empty device_ids list, each zone endpoint (zone preset with a
valid preset) still polls exactly once, makes zero setter calls, and returns
status ok with the echoed value and an empty results list. -/
theorem zone_empty_ids (gw : Gateway) (t : ℚ) (p : String) (hp : p ∈ valid_presets) :
    set_zone_temperature gw ⟨[], t⟩ =
      ({ status := "ok", temperature := t, results := [] }, [Event.poll]) ∧
    set_zone_preset gw ⟨[], p⟩ =
      (Except.ok { status := "ok", preset := p, results := [] }, [Event.poll]) := by
  constructor
  · rfl
  · simp [set_zone_preset, hp, zone_preset_loop]

/-- C9 witness: the empty batch at a concrete state and valid preset. -/
theorem zone_empty_ids_witness :
    "Permanent Hold" ∈ valid_presets ∧
    set_zone_temperature sampleGateway ⟨[], 19⟩ =
      ({ status := "ok", temperature := 19, results := [] }, [Event.poll]) ∧
    set_zone_preset sampleGateway ⟨[], "Permanent Hold"⟩ =
      (Except.ok { status := "ok", preset := "Permanent Hold", results := [] },
       [Event.poll]) :=
  ⟨by decide, (zone_empty_ids sampleGateway 19 "Permanent Hold" (by decide)).1,
   (zone_empty_ids sampleGateway 19 "Permanent Hold" (by decide)).2⟩

/-- C4: for any string outside the accepted modes — the enumeration being
exactly off, heat, auto, and membership being plain string equality against
valid_modes with no case normalization — POST /device/{id}/mode returns 400
with the detail carrying the full accepted list whenever the device resolves,
and the gateway mode setter is never called in any case. -/
theorem set_mode_invalid_rejected (gw : Gateway) (device_id m : String)
    (hm : m ∉ valid_modes) :
    valid_modes = ["off", "heat", "auto"] ∧
    ((gw.get_climate_device device_id).isSome →
      set_mode gw device_id m =
        (Except.error ⟨400, Detail.invalidMode valid_modes⟩, [Event.poll])) ∧
    ∀ id v, Event.setMode id v ∉ (set_mode gw device_id m).2 := by
  refine ⟨rfl, ?_, ?_⟩
  · intro hs
    obtain ⟨d, hd⟩ := Option.isSome_iff_exists.mp hs
    simp [set_mode, hd, hm]
  · intro id v
    cases hd : gw.get_climate_device device_id with
    | none => simp [set_mode, hd]
    | some d => simp [set_mode, hd, hm]

/-- C4 witness: "OFF", the upper-case variant of the accepted "off", is
rejected with 400 for a present device. -/
theorem set_mode_invalid_rejected_witness :
    "OFF" ∉ valid_modes ∧
    set_mode sampleGateway "d1" "OFF" =
      (Except.error ⟨400, Detail.invalidMode valid_modes⟩, [Event.poll]) :=
  ⟨by decide,
   (set_mode_invalid_rejected sampleGateway "d1" "OFF" (by decide)).2.1 (by decide)⟩

/-- C5: each single-device mutating endpoint polls, then resolves the device
— an absent id yields 404 with the trace staying the lone poll, regardless of
the value, so a 404 wins even when the value is also invalid —, then for
mode/preset validates the value (400 on failure, still no setter call), and
only then performs exactly one setter call and returns the ok confirmation
carrying the device id and the applied value. -/
theorem single_device_dispatch_order (gw : Gateway) (device_id : String) (t : ℚ)
    (m p : String) :
    (gw.get_climate_device device_id = none →
      set_temperature gw device_id t =
        (Except.error ⟨404, Detail.deviceNotFound device_id⟩, [Event.poll]) ∧
      set_mode gw device_id m =
        (Except.error ⟨404, Detail.deviceNotFound device_id⟩, [Event.poll]) ∧
      set_preset gw device_id p =
        (Except.error ⟨404, Detail.deviceNotFound device_id⟩, [Event.poll])) ∧
    ((gw.get_climate_device device_id).isSome →
      set_temperature gw device_id t =
        (Except.ok { status := "ok", device_id := device_id, temperature := t },
         [Event.poll, Event.setTemperature device_id t]) ∧
      (m ∈ valid_modes →
        set_mode gw device_id m =
          (Except.ok { status := "ok", device_id := device_id, mode := m },
           [Event.poll, Event.setMode device_id m])) ∧
      (m ∉ valid_modes →
        set_mode gw device_id m =
          (Except.error ⟨400, Detail.invalidMode valid_modes⟩, [Event.poll])) ∧
      (p ∈ valid_presets →
        set_preset gw device_id p =
          (Except.ok { status := "ok", device_id := device_id, preset := p },
           [Event.poll, Event.setPreset device_id p])) ∧
      (p ∉ valid_presets →
        set_preset gw device_id p =
          (Except.error ⟨400, Detail.invalidPreset valid_presets⟩, [Event.poll]))) := by
  constructor
  · intro h
    refine ⟨?_, ?_, ?_⟩ <;> simp [set_temperature, set_mode, set_preset, h]
  · intro hs
    obtain ⟨d, hd⟩ := Option.isSome_iff_exists.mp hs
    refine ⟨by simp [set_temperature, hd], ?_, ?_, ?_, ?_⟩
    · intro hvm
      simp [set_mode, hd, hvm]
    · intro hvm
      simp [set_mode, hd, hvm]
    · intro hvp
      simp [set_preset, hd, hvp]
    · intro hvp
      simp [set_preset, hd, hvp]

/-- C6: when the single-device lookup and the all-devices mapping agree on
the device record for an id, the DeviceResponse of GET /device/{id} is
exactly the entry built for that id in the devices list of GET /devices. -/
theorem get_device_matches_get_devices (gw : Gateway) (device_id : String) (d : Device)
    (hmem : (device_id, d) ∈ gw.get_climate_devices)
    (hlook : gw.get_climate_device device_id = some d) :
    (get_device gw device_id).1 = Except.ok (device_to_response device_id d) ∧
    device_to_response device_id d ∈ (get_devices gw).1.devices := by
  constructor
  · simp [get_device, hlook]
  · simp only [get_devices, Gateway.get_climate_devices]
    exact List.mem_map.mpr ⟨(device_id, d), hmem, rfl⟩

/-- C6 witness: device d1 of the sample gateway. -/
theorem get_device_matches_get_devices_witness :
    ("d1", sampleDevice) ∈ sampleGateway.get_climate_devices ∧
    sampleGateway.get_climate_device "d1" = some sampleDevice ∧
    (get_device sampleGateway "d1").1 = Except.ok (device_to_response "d1" sampleDevice) :=
  ⟨by decide, by decide,
   (get_device_matches_get_devices sampleGateway "d1" sampleDevice
      (by decide) (by decide)).1⟩

/-- C7: device_to_response is a pure total Lean function (no failure mode)
copying every field verbatim from the device record; the optional fields are
carried over unchanged, so an absent value stays absent. -/
theorem device_to_response_copies_fields (device_id : String) (device : Device) :
    (device_to_response device_id device).id = device_id ∧
    (device_to_response device_id device).name = device.name ∧
    (device_to_response device_id device).current_temperature
      = device.current_temperature ∧
    (device_to_response device_id device).target_temperature
      = device.target_temperature ∧
    (device_to_response device_id device).hvac_mode = device.hvac_mode ∧
    (device_to_response device_id device).hvac_action = device.hvac_action ∧
    (device_to_response device_id device).preset_mode = device.preset_mode ∧
    (device_to_response device_id device).available = device.available :=
  ⟨rfl, rfl, rfl, rfl, rfl, rfl, rfl, rfl⟩

/-- C8: when either configuration variable is unset, module initialization
raises the required-configuration ValueError and process start never reaches
the lifespan: no gateway call list is produced, so no connect is attempted. -/
theorem startup_requires_configuration (env : Env)
    (h : env.SALUS_GATEWAY_HOST = none ∨ env.SALUS_GATEWAY_EUID = none) :
    process_start env =
      Except.error
        "SALUS_GATEWAY_HOST and SALUS_GATEWAY_EUID environment variables are required" ∧
    ∀ calls : List StartupCall, process_start env ≠ Except.ok calls := by
  have hb : (py_not_str env.SALUS_GATEWAY_HOST
      || py_not_str env.SALUS_GATEWAY_EUID) = true := by
    cases h with
    | inl h1 => simp [py_not_str, h1]
    | inr h2 => simp [py_not_str, h2]
  constructor
  · simp [process_start, module_init, hb]
  · intro calls
    simp [process_start, module_init, hb]

/-- C8 witness: a set euid but unset host refuses to start. -/
theorem startup_requires_configuration_witness :
    ((⟨none, some "0000"⟩ : Env).SALUS_GATEWAY_HOST = none ∨
      (⟨none, some "0000"⟩ : Env).SALUS_GATEWAY_EUID = none) ∧
    process_start ⟨none, some "0000"⟩ =
      Except.error
        "SALUS_GATEWAY_HOST and SALUS_GATEWAY_EUID environment variables are required" :=
  ⟨Or.inl rfl, (startup_requires_configuration ⟨none, some "0000"⟩ (Or.inl rfl)).1⟩

/-- C10: GET /devices returns a count equal to the length of its devices
list, and that list holds exactly one view per entry of the gateway mapping,
in mapping order. -/
theorem get_devices_count_matches (gw : Gateway) :
    (get_devices gw).1.count = (get_devices gw).1.devices.length ∧
    (get_devices gw).1.devices =
      gw.get_climate_devices.map (fun pr => device_to_response pr.1 pr.2) := by
  constructor
  · simp [get_devices]
  · rfl
